import Mathlib

/-!
# PhotoShare — verification of the authorization / ownership model

Shallow embedding of the PhotoShare backend (FastAPI + SQLAlchemy) into Lean.
The relational store is a record of lists of rows; every repository function
becomes a pure function from the store (and the resolved identity) to either
an `Http` failure — modelling `fastapi.HTTPException` — or the new store
together with the returned row.  External collaborators (the Cloudinary asset
host) are passed in as function parameters.
-/

namespace PhotoShare

/-- The `Role` enum from `src/entity/models.py`. -/
inductive Role where
  | ADMIN
  | MODERATOR
  | USER
deriving DecidableEq, Repr

/-- A refresh token as issued by the token service: it carries the subject
email (the JWT `sub` claim) and an issue stamp distinguishing successive
issues to the same subject (the JWT `iat` claim). -/
structure RefreshToken where
  sub : String
  iat : Nat
deriving DecidableEq, Repr

/-- The `Tag` row from `src/entity/models.py`. -/
structure Tag where
  id : Nat
  name : String
deriving DecidableEq, Repr

/-- The `Post` (photo) row from `src/entity/models.py`; `tags` is the loaded
many-to-many relationship. -/
structure Post where
  id : Nat
  description : Option String
  user_id : Nat
  url : String
  public_id : String
  transformed_url : Option String
  qr_code_path : Option String
  tags : List Tag
deriving DecidableEq, Repr

/-- The `User` row from `src/entity/models.py`. -/
structure User where
  id : Nat
  username : String
  email : String
  password : String
  is_active : Bool
  refresh_token : Option RefreshToken
  role : Role
  confirmed : Bool
deriving DecidableEq, Repr

/-- The `Comment` row from `src/entity/models.py`. -/
structure Comment where
  id : Nat
  comment_content : String
  user_id : Nat
  post_id : Nat
deriving DecidableEq, Repr

/-- The relational store: one list of rows per table, plus primary-key
counters for rows created by `db.add` / `db.flush`, and a clock used as the
issue stamp of freshly minted refresh tokens. -/
structure DB where
  users : List User
  posts : List Post
  tags : List Tag
  comments : List Comment
  nextUserId : Nat
  nextPostId : Nat
  nextTagId : Nat
  nextCommentId : Nat
  tokenClock : Nat
deriving DecidableEq, Repr

def emptyDB : DB :=
  { users := [], posts := [], tags := [], comments := []
    nextUserId := 1, nextPostId := 1, nextTagId := 1, nextCommentId := 1
    tokenClock := 0 }

/-- Model of `fastapi.HTTPException`: a status code and a detail string. -/
structure Http where
  status : Nat
  detail : String
deriving DecidableEq, Repr

/-- Model of Python's `str.lower` (and of SQL `func.lower`): lowercase
character by character.  Stated over the character list so that it
computes inside the kernel. -/
def pyLower (s : String) : String := String.mk (s.data.map Char.toLower)

/-- Model of Python's `str.casefold` (all source inputs are ASCII, where
casefold coincides with lowercasing). -/
def casefold (s : String) : String := pyLower s

/-- Model of Python's `str.split(",")`: split into the (possibly empty)
runs of characters between commas. -/
def splitCommaAux : List Char → List (List Char)
  | [] => [[]]
  | c :: cs =>
    if c = ',' then [] :: splitCommaAux cs
    else
      match splitCommaAux cs with
      | [] => [[c]]
      | g :: gs => (c :: g) :: gs

def splitComma (s : String) : List String := (splitCommaAux s.data).map String.mk

/-- Model of Python's `str.strip()`: drop leading and trailing whitespace
(the source only ever strips ASCII whitespace around tag names). -/
def pyStrip (s : String) : String :=
  String.mk (((s.data.dropWhile Char.isWhitespace).reverse.dropWhile Char.isWhitespace).reverse)

/-- Model of SQLAlchemy's `scalar_one_or_none()`: `none` when no row
matches, the row when exactly one matches, and the `MultipleResultsFound`
exception when several rows match. -/
def scalar_one_or_none (p : α → Bool) (l : List α) : Except String (Option α) :=
  match l.filter p with
  | [] => .ok none
  | [a] => .ok (some a)
  | _ :: _ :: _ => .error "MultipleResultsFound"

/-- Query `select(Post).filter_by(id=photo_id)` + `scalar_one_or_none()`.
The filter is on the primary key, so at most one row can match and the
lookup is exactly `find?`; the same holds for the id- and unique-email
lookups below.  Only the case-insensitive tag query, whose filter is
coarser than the case-sensitive unique constraint on `Tag.name`, can see
several matching rows — it is modelled with `scalar_one_or_none` and its
error path. -/
def findPost (db : DB) (photo_id : Nat) : Option Post :=
  db.posts.find? (fun p => p.id == photo_id)

/-- Query `select(Post).filter_by(id=photo_id, user_id=user.id)` +
`scalar_one_or_none()`. -/
def findPostOwned (db : DB) (photo_id uid : Nat) : Option Post :=
  db.posts.find? (fun p => p.id == photo_id && p.user_id == uid)

/-- Query `select(User).where(User.email == email)` + `scalar_one_or_none()`. -/
def findUserByEmail (db : DB) (email : String) : Option User :=
  db.users.find? (fun u => u.email == email)

/-- Query `select(Comment).filter_by(id=comment_id)` + `scalar_one_or_none()`. -/
def findComment (db : DB) (comment_id : Nat) : Option Comment :=
  db.comments.find? (fun c => c.id == comment_id)

/-- Committing a mutated `Post` ORM object: replace the row with the same
primary key. -/
def putPost (db : DB) (p : Post) : DB :=
  { db with posts := db.posts.map (fun q => if q.id == p.id then p else q) }

/-- Committing a mutated `User` ORM object. -/
def putUser (db : DB) (u : User) : DB :=
  { db with users := db.users.map (fun q => if q.id == u.id then u else q) }

/-- Committing a mutated `Comment` ORM object. -/
def putComment (db : DB) (c : Comment) : DB :=
  { db with comments := db.comments.map (fun q => if q.id == c.id then c else q) }

/-! ## Schemas (`src/schemas/*.py`) -/

/-- Schema `UserSchema` from `src/schemas/user.py`; the `role` field defaults to
`Role.USER` when the request omits it. -/
structure UserSchema where
  username : String
  email : String
  password : String
  role : Role := Role.USER
deriving DecidableEq, Repr

/-- Schema `PhotoUpdateSchema` from `src/schemas/photo.py`: all fields optional. -/
structure PhotoUpdateSchema where
  description : Option String := none
  tags : Option (List String) := none
  transformed_url : Option String := none
deriving DecidableEq, Repr

/-- Schema `CommentaryUpdateSchema` from `src/schemas/comment.py`: the
`comment_content` field is a required `str`. -/
structure CommentaryUpdateSchema where
  comment_content : String
deriving DecidableEq, Repr

/-! ## Tag resolution (`src/repository/photos.py`) -/

/-- Tag lookup used by `create_photo`:
`select(Tag).filter_by(name=tag_name)` — an exact, case-sensitive match —
creating the tag (`db.add`, `db.flush`) when absent. -/
def resolveTagExact (db : DB) (tag_name : String) : DB × Tag :=
  match db.tags.find? (fun t => t.name == tag_name) with
  | some t => (db, t)
  | none =>
    let t : Tag := { id := db.nextTagId, name := tag_name }
    ({ db with tags := db.tags ++ [t], nextTagId := db.nextTagId + 1 }, t)

/-- The `for tag_name in tags` loop of `create_photo`. -/
def resolveTagsExact (db : DB) : List String → DB × List Tag
  | [] => (db, [])
  | n :: ns =>
    let r := resolveTagExact db n
    let rest := resolveTagsExact r.1 ns
    (rest.1, r.2 :: rest.2)

/-- Tag lookup used by `update_photo_description`:
`select(Tag).where(func.lower(Tag.name) == tag_name.casefold())` +
`scalar_one_or_none()` — a case-insensitive match — creating the tag when
absent.  The unique constraint on `Tag.name` is case-sensitive, so several
rows can match this filter; `scalar_one_or_none` then raises
`MultipleResultsFound`, which nothing in the source catches, surfacing as
a 500. -/
def resolveTagCI (db : DB) (tag_name : String) : Except Http (DB × Tag) :=
  match scalar_one_or_none (fun t => pyLower t.name == casefold tag_name) db.tags with
  | .error msg => .error { status := 500, detail := msg }
  | .ok (some t) => .ok (db, t)
  | .ok none =>
    let t : Tag := { id := db.nextTagId, name := tag_name }
    .ok ({ db with tags := db.tags ++ [t], nextTagId := db.nextTagId + 1 }, t)

/-- The `for tag_name in normalized_tags` loop of
`update_photo_description`; the first `MultipleResultsFound` aborts the
request. -/
def resolveTagsCI (db : DB) : List String → Except Http (DB × List Tag)
  | [] => .ok (db, [])
  | n :: ns =>
    match resolveTagCI db n with
    | .error e => .error e
    | .ok r =>
      match resolveTagsCI r.1 ns with
      | .error e => .error e
      | .ok rest => .ok (rest.1, r.2 :: rest.2)

/-- The `seen` set / `normalized_tags` loop of `update_photo_description`:
keep the first occurrence of each casefolded key, in order, with its
first-seen casing. -/
def dedupCasefoldAux (seen : List String) : List String → List String
  | [] => []
  | t :: ts =>
    let key := casefold t
    if key ∈ seen then dedupCasefoldAux seen ts
    else t :: dedupCasefoldAux (key :: seen) ts

def dedupCasefold (parts : List String) : List String := dedupCasefoldAux [] parts

/-- The tag-table invariant the spec's case-insensitive uniqueness demands:
no two `Tag` rows have casefold-equal names.  The schema's case-sensitive
unique constraint does not enforce it, and the creation path can break it;
on stores violating it the case-insensitive lookup can hit
`MultipleResultsFound`. -/
def tagsCaseNodup (db : DB) : Prop := (db.tags.map (fun t => pyLower t.name)).Nodup

/-- The tag normalization of `update_photo_description`:
`raw = ",".join(body.tags)`;
`parts = [t.strip() for t in raw.split(",") if t.strip()]`;
then the casefold de-duplication loop. -/
def normalizeTags (tags : List String) : List String :=
  let raw := String.intercalate "," tags
  let parts := ((splitComma raw).filter (fun t => pyStrip t ≠ "")).map pyStrip
  dedupCasefold parts

/-! ## Photo repository (`src/repository/photos.py`) -/

/-- Function `create_photo`.  The Cloudinary upload result `(url, public_id)` is
passed in as a value; tag resolution is the exact-name lookup; the new row
is committed with a fresh primary key. -/
def create_photo (uploaded : String × String) (description : Option String)
    (tags : Option (List String)) (db : DB) (user : User) : DB × Post :=
  let (url, public_id) := uploaded
  let (db, tag_objects) :=
    match tags with
    | some ts => if ts.isEmpty then (db, []) else resolveTagsExact db ts
    | none => (db, [])
  let new_photo : Post :=
    { id := db.nextPostId, description := description, user_id := user.id
      url := url, public_id := public_id, transformed_url := none
      qr_code_path := none, tags := tag_objects }
  ({ db with posts := db.posts ++ [new_photo], nextPostId := db.nextPostId + 1 }, new_photo)

/-- The `post.description` / `post.transformed_url` assignment steps of
`update_photo_description`, factored out so its normal forms can be
stated. -/
def applyBodyFields (p : Post) (body : PhotoUpdateSchema) : Post :=
  let p₁ := match body.description with
    | some d => { p with description := some d }
    | none => p
  match body.transformed_url with
  | some t => { p₁ with transformed_url := some t }
  | none => p₁

/-- Function `update_photo_description`: load by id (404 when absent), ownership
check (403 when the caller is not the row's owner — no role bypass), then
apply exactly the fields present in the body; when no field is present the
loaded row is returned with no commit.  A `MultipleResultsFound` raised by
the tag lookup propagates (uncaught, a 500) and nothing is committed. -/
def update_photo_description (photo_id : Nat) (body : PhotoUpdateSchema)
    (db : DB) (user : User) : Except Http (DB × Post) :=
  match findPost db photo_id with
  | none => .error { status := 404, detail := "Photo not found" }
  | some post =>
    if post.user_id ≠ user.id then
      .error { status := 403, detail := "Not enough permissions to update this photo" }
    else
      let post := match body.description with
        | some d => { post with description := some d }
        | none => post
      let post := match body.transformed_url with
        | some t => { post with transformed_url := some t }
        | none => post
      let rRes : Except Http (DB × Post) := match body.tags with
        | some ts =>
          match resolveTagsCI db (normalizeTags ts) with
          | .error e => .error e
          | .ok q => .ok (q.1, { post with tags := q.2 })
        | none => .ok (db, post)
      match rRes with
      | .error e => .error e
      | .ok r =>
        let changed := body.description.isSome || body.transformed_url.isSome || body.tags.isSome
        if changed then .ok (putPost r.1 r.2, r.2)
        else .ok (db, r.2)

/-- Function `delete_photo`: load by id (404 when absent), ownership check (403, no
role bypass), then delete the row; the `delete-orphan` cascade on
`Post.comments` removes the photo's comments. -/
def delete_photo (photo_id : Nat) (db : DB) (user : User) : Except Http DB :=
  match findPost db photo_id with
  | none => .error { status := 404, detail := "Photo not found" }
  | some post =>
    if post.user_id ≠ user.id then
      .error { status := 403, detail := "Not enough permissions to delete this photo" }
    else
      .ok { db with
              posts := db.posts.filter (fun p => p.id ≠ post.id)
              comments := db.comments.filter (fun c => c.post_id ≠ post.id) }

/-! ## Cloudinary service (`src/services/cloudinary_service.py`) -/

/-- The fixed transformation table of `CloudinaryService.transform_image`. -/
def supportedTransformations : List String := ["resize", "crop", "grayscale", "quality"]

/-- Method `CloudinaryService.transform_image`: `ValueError` (modelled as
`Except.error`) for a name outside the table, otherwise the eager URL
returned by the external asset host (passed in as `host`). -/
def transform_image (host : String → String → String)
    (public_id transformation : String) : Except String String :=
  if transformation ∈ supportedTransformations then .ok (host public_id transformation)
  else .error "Unsupported transformation"

/-- Function `transform_photo`: load by id and owner (404 when absent), call the
service, catch `ValueError` as a 400; the store is returned unchanged on
every failure since the exception is raised before any assignment or
commit. -/
def transform_photo (host : String → String → String) (photo_id : Nat)
    (transformation : String) (db : DB) (user : User) : DB × Except Http Post :=
  match findPostOwned db photo_id user.id with
  | none => (db, .error { status := 404, detail := "Photo not found" })
  | some photo =>
    match transform_image host photo.public_id transformation with
    | .error e => (db, .error { status := 400, detail := e })
    | .ok transformed_url =>
      let photo := { photo with transformed_url := some transformed_url }
      (putPost db photo, .ok photo)

/-! ## Users and authentication
(`src/repository/users.py`, `src/routes/auth.py`, `src/crud.py`) -/

/-- Modelled from the spec: `get_password_hash` lives in the absent module
`src/services/auth.py`; the spec's credential hashing collaborator exposes
`hash(plaintext) -> hash`, never storing plaintext. -/
def get_password_hash (plaintext : String) : String := "pbkdf2$" ++ plaintext

/-- Modelled from the spec: `verify_password` from the absent
`src/services/auth.py`; the collaborator's `verify(plaintext, hash)`. -/
def verify_password (plaintext hashed : String) : Bool :=
  hashed == get_password_hash plaintext

/-- Modelled from the spec: `create_refresh_token` from the absent
`src/services/auth.py`; it encodes the subject email and an issue stamp, so
tokens issued at different clock values are distinct. -/
def create_refresh_token (sub : String) (clock : Nat) : RefreshToken :=
  { sub := sub, iat := clock }

/-- Modelled from the spec: `decode_refresh_token` from the absent
`src/services/auth.py`; for a structurally valid token it returns the
carried email. -/
def decode_refresh_token (t : RefreshToken) : String := t.sub

/-- Function `repository.users.create_user`: `User(**body.model_dump())` — every
column comes from the request schema (in particular `role := body.role`)
and the remaining columns take their model defaults. -/
def create_user (body : UserSchema) (db : DB) : DB × User :=
  let new_user : User :=
    { id := db.nextUserId, username := body.username, email := body.email
      password := body.password, is_active := true, refresh_token := none
      role := body.role, confirmed := false }
  ({ db with users := db.users ++ [new_user], nextUserId := db.nextUserId + 1 }, new_user)

/-- Function `repository.users.update_token`: overwrite the user's stored refresh
token and commit. -/
def update_token (user : User) (token : Option RefreshToken) (db : DB) : DB :=
  putUser db { user with refresh_token := token }

/-- Route `routes.auth.signup`: 409 when the email is taken, otherwise hash the
password into the body and create the user.  No count-based or bootstrap
rule is applied anywhere on this path. -/
def signup (body : UserSchema) (db : DB) : Except Http (DB × User) :=
  match findUserByEmail db body.email with
  | some _ => .error { status := 409, detail := "Account already exists" }
  | none =>
    let body := { body with password := get_password_hash body.password }
    .ok (create_user body db)

/-- Modelled from the spec: `hash_password` is imported by `src/crud.py`
from a `security` module absent from the repository; the spec's hashing
collaborator. -/
def hash_password (plaintext : String) : String := get_password_hash plaintext

namespace crud

/-- Function `crud.create_user` (top-level `src/crud.py`): the count-based role
rule — the first user in the store becomes ADMIN, all others USER.  This
module is imported nowhere in the repository; the live registration path is
`routes.auth.signup` above. -/
def create_user (db : DB) (username email password : String) : DB × User :=
  let role := if db.users.length = 0 then Role.ADMIN else Role.USER
  let user : User :=
    { id := db.nextUserId, username := username, email := email
      password := hash_password password, is_active := true
      refresh_token := none, role := role, confirmed := false }
  ({ db with users := db.users ++ [user], nextUserId := db.nextUserId + 1 }, user)

end crud

/-- Route `routes.auth.login`: look the user up by the submitted username field
(an email), verify the password, issue fresh tokens, persist the refresh
token against the user row.  Only the refresh token is tracked here; the
access token plays no part in the claims. -/
def login (username password : String) (db : DB) : Except Http (DB × RefreshToken) :=
  match findUserByEmail db username with
  | none => .error { status := 401, detail := "Invalid email" }
  | some user =>
    if ¬ verify_password password user.password then
      .error { status := 401, detail := "Invalid password" }
    else
      let rt := create_refresh_token user.email db.tokenClock
      let db := { db with tokenClock := db.tokenClock + 1 }
      .ok (update_token user (some rt) db, rt)

/-- Route `routes.auth.refresh_token`: decode the presented token, load the user
by the decoded email, and when the presented token differs from the stored
one clear the stored token and fail 401; otherwise rotate.  The source
dereferences the user without a `None` check, so a token whose subject
matches no user crashes (modelled as a 500). -/
def refresh_token_route (t : RefreshToken) (db : DB) : DB × Except Http RefreshToken :=
  let email := decode_refresh_token t
  match findUserByEmail db email with
  | none => (db, .error { status := 500, detail := "AttributeError: NoneType" })
  | some user =>
    if user.refresh_token ≠ some t then
      (update_token user none db, .error { status := 401, detail := "Invalid refresh token" })
    else
      let rt := create_refresh_token email db.tokenClock
      let db := { db with tokenClock := db.tokenClock + 1 }
      (update_token user (some rt) db, .ok rt)

/-! ## Comments (`src/repository/comment.py`, `src/routes/comment.py`,
`src/services/auth_service.py`, `src/services/roles.py`) -/

/-- Function `repository.comment.update_comment`: load by id (404 when absent),
author check (403 — no role bypass), then set the content.  The source
guards the assignment with `body.comment_content is not None`, but the
schema declares the field as a required `str`, so the guard always
holds. -/
def update_comment (comment_id : Nat) (body : CommentaryUpdateSchema)
    (db : DB) (user : User) : Except Http (DB × Comment) :=
  match findComment db comment_id with
  | none => .error { status := 404, detail := "Comment not found" }
  | some comment =>
    if comment.user_id ≠ user.id then
      .error { status := 403, detail := "Not authorized to update this comment" }
    else
      let comment := { comment with comment_content := body.comment_content }
      .ok (putComment db comment, comment)

/-- Dependency `services.roles.RoleAccess.__call__`: 403 unless the caller's role is
in the allowed list. -/
def roleAccess (allowed_roles : List Role) (user : User) : Except Http Unit :=
  if user.role ∉ allowed_roles then
    .error { status := 403, detail := "FORBIDDEN" }
  else .ok ()

/-- Dependency `services.auth_service.is_owner_or_admin` compares
`current_user.role == "ADMIN"`: `Role` is a plain `enum.Enum` (it does not
subclass `str`), so equality between a `Role` member and the string is
always `False` in Python. -/
def roleEqPyStr (_role : Role) (_s : String) : Bool := false

/-- Dependency `services.auth_service.is_owner_or_admin`: allow when the (dead) string
comparison with "ADMIN" succeeds or when the caller's id equals the
`user_id` request parameter, else 403.  As a route dependency its
`user_id : int` argument is a client-supplied query parameter. -/
def is_owner_or_admin (user_id : Nat) (current_user : User) : Except Http User :=
  if roleEqPyStr current_user.role "ADMIN" then .ok current_user
  else if current_user.id = user_id then .ok current_user
  else .error { status := 403, detail := "not enough permissions" }

/-- Modelled from the spec: `repository.comment.delete_comment` is called
by the delete route but absent from `src/repository/comment.py`.  Spec
§4.3/§3: load by id, absent means NotFound; a comment is deleted by its
author or a user holding an elevated role, anyone else is Forbidden. -/
def delete_comment (comment_id : Nat) (db : DB) (user : User) : Except Http DB :=
  match findComment db comment_id with
  | none => .error { status := 404, detail := "Comment not found" }
  | some comment =>
    if comment.user_id = user.id ∨ user.role = Role.ADMIN ∨ user.role = Role.MODERATOR then
      .ok { db with comments := db.comments.filter (fun c => c.id ≠ comment.id) }
    else
      .error { status := 403, detail := "not enough permissions" }

/-- Route `routes.comment.delete_comment`: the route first runs its dependencies
— `RoleAccess([Role.ADMIN, Role.MODERATOR])` and then
`is_owner_or_admin(user_id, current_user)` — and only then reaches the
repository delete.  `user_id` is the query parameter the second dependency
introduces. -/
def delete_comment_route (comment_id user_id : Nat) (db : DB) (user : User) :
    Except Http DB := do
  let _ ← roleAccess [Role.ADMIN, Role.MODERATOR] user
  let _ ← is_owner_or_admin user_id user
  delete_comment comment_id db user

/-! ## Concrete fixtures used by counterexamples and witnesses -/

def bob : User :=
  { id := 1, username := "bob", email := "bob@example.com"
    password := get_password_hash "bobpw", is_active := true
    refresh_token := none, role := Role.USER, confirmed := true }

def alice : User :=
  { id := 2, username := "alice", email := "alice@example.com"
    password := get_password_hash "alicepw", is_active := true
    refresh_token := none, role := Role.ADMIN, confirmed := true }

def bobsPhoto : Post :=
  { id := 1, description := some "sea", user_id := 1, url := "http://img/1"
    public_id := "pub1", transformed_url := none, qr_code_path := none
    tags := [] }

def bobsComment : Comment :=
  { id := 1, comment_content := "nice shot", user_id := 1, post_id := 1 }

def sampleDB : DB :=
  { emptyDB with users := [bob, alice], posts := [bobsPhoto]
                 comments := [bobsComment]
                 nextUserId := 3, nextPostId := 2, nextCommentId := 2 }

def seaTag : Tag := { id := 5, name := "sea" }

def taggedPhoto : Post := { bobsPhoto with tags := [seaTag] }

def dbTagged : DB :=
  { sampleDB with posts := [taggedPhoto], tags := [seaTag], nextTagId := 6 }

def dbCaseTag : DB :=
  { sampleDB with tags := [{ id := 7, name := "NATURE" }], nextTagId := 8 }

/-- A store reached by two photo creations whose tag names differ only in
case: the exact-match creation path leaves two casefold-equal Tag rows. -/
def dbDup : DB :=
  (create_photo ("u2", "pub9") none (some ["Nature"])
    (create_photo ("u1", "pub8") none (some ["nature"]) emptyDB bob).1 bob).1

/-- The first photo created in `dbDup`, owned by bob. -/
def photoDup : Post :=
  { id := 1, description := none, user_id := 1, url := "u1", public_id := "pub8"
    transformed_url := none, qr_code_path := none
    tags := [{ id := 1, name := "nature" }] }

def bobLoggedIn : User :=
  { bob with refresh_token := some { sub := "bob@example.com", iat := 0 } }

def dbAuth : DB :=
  { emptyDB with users := [bobLoggedIn], nextUserId := 2, tokenClock := 3 }

end PhotoShare

namespace PhotoShare

/-! ## Theorems -/

/-! ### Helper lemmas on the photo update -/

lemma update_photo_forbidden (db : DB) (p : Post) (u : User) (body : PhotoUpdateSchema)
    (hp : findPost db p.id = some p) (hne : p.user_id ≠ u.id) :
    update_photo_description p.id body db u =
      .error { status := 403, detail := "Not enough permissions to update this photo" } := by
  simp only [update_photo_description, hp]
  rw [if_pos hne]

lemma delete_photo_forbidden (db : DB) (p : Post) (u : User)
    (hp : findPost db p.id = some p) (hne : p.user_id ≠ u.id) :
    delete_photo p.id db u =
      .error { status := 403, detail := "Not enough permissions to delete this photo" } := by
  simp only [delete_photo, hp]
  rw [if_pos hne]

lemma delete_photo_by_owner (db : DB) (p : Post) (u : User)
    (hp : findPost db p.id = some p) (hown : p.user_id = u.id) :
    delete_photo p.id db u =
      .ok { db with posts := db.posts.filter (fun q => q.id ≠ p.id)
                    comments := db.comments.filter (fun c => c.post_id ≠ p.id) } := by
  simp only [delete_photo, hp]
  rw [if_neg (not_not_intro hown)]

/-- Field-by-field description of `applyBodyFields`: it never touches id,
owner, url, public_id, qr_code_path or tags, and sets description and
transformed_url exactly when the body carries them. -/
lemma applyBodyFields_frame (p : Post) (body : PhotoUpdateSchema) :
    (applyBodyFields p body).id = p.id ∧
    (applyBodyFields p body).user_id = p.user_id ∧
    (applyBodyFields p body).url = p.url ∧
    (applyBodyFields p body).public_id = p.public_id ∧
    (applyBodyFields p body).qr_code_path = p.qr_code_path ∧
    (applyBodyFields p body).tags = p.tags ∧
    (applyBodyFields p body).description =
      (match body.description with | some d => some d | none => p.description) ∧
    (applyBodyFields p body).transformed_url =
      (match body.transformed_url with | some t => some t | none => p.transformed_url) := by
  obtain ⟨bd, bt, btu⟩ := body
  cases bd <;> cases btu <;> exact ⟨rfl, rfl, rfl, rfl, rfl, rfl, rfl, rfl⟩

/-- Normal form of an owner's update with no tags field: the body reduces
to the `changed` if, with the present fields applied to the loaded row. -/
lemma update_photo_owner_unfold_none (db : DB) (p : Post) (u : User)
    (body : PhotoUpdateSchema)
    (hp : findPost db p.id = some p) (hown : p.user_id = u.id)
    (hbt : body.tags = none) :
    update_photo_description p.id body db u =
      if body.description.isSome || body.transformed_url.isSome || body.tags.isSome
      then .ok (putPost db (applyBodyFields p body), applyBodyFields p body)
      else .ok (db, applyBodyFields p body) := by
  obtain ⟨bd, bt, btu⟩ := body
  have hbt' : bt = none := hbt
  subst hbt'
  simp only [update_photo_description, hp]
  rw [if_neg (not_not_intro hown)]
  cases bd <;> cases btu <;> rfl

/-- Normal form of an owner's update with a tags field: the call mirrors
the tag resolution — `MultipleResultsFound` propagates, and on success the
row is committed with the resolved tag set and other present fields. -/
lemma update_photo_owner_unfold_tags (db : DB) (p : Post) (u : User)
    (body : PhotoUpdateSchema) (ts : List String)
    (hp : findPost db p.id = some p) (hown : p.user_id = u.id)
    (hbt : body.tags = some ts) :
    update_photo_description p.id body db u =
      (match resolveTagsCI db (normalizeTags ts) with
       | .error e => .error e
       | .ok q => .ok (putPost q.1 { applyBodyFields p body with tags := q.2 },
                       { applyBodyFields p body with tags := q.2 })) := by
  obtain ⟨bd, bt, btu⟩ := body
  have hbt' : bt = some ts := hbt
  subst hbt'
  simp only [update_photo_description, hp]
  rw [if_neg (not_not_intro hown)]
  cases bd <;> cases btu <;>
    (cases resolveTagsCI db (normalizeTags ts) <;> rfl)

/-- An owner's update with no tags field always succeeds and returns the
row with exactly the present fields applied; the empty body is a no-op
returning the loaded row and the untouched store. -/
lemma update_photo_by_owner_no_tags (db : DB) (p : Post) (u : User)
    (body : PhotoUpdateSchema)
    (hp : findPost db p.id = some p) (hown : p.user_id = u.id)
    (hbt : body.tags = none) :
    ∃ db', update_photo_description p.id body db u = .ok (db', applyBodyFields p body) ∧
      (body = {} → applyBodyFields p body = p ∧ db' = db) := by
  refine ⟨if body.description.isSome || body.transformed_url.isSome || body.tags.isSome
          then putPost db (applyBodyFields p body) else db, ?_, ?_⟩
  · rw [update_photo_owner_unfold_none db p u body hp hown hbt]
    by_cases hc : (body.description.isSome || body.transformed_url.isSome ||
        body.tags.isSome) = true
    · rw [if_pos hc, if_pos hc]
    · rw [if_neg hc, if_neg hc]
  · intro h
    subst h
    exact ⟨rfl, rfl⟩

/-- An owner's update with a tags field fails exactly when the tag
resolution fails, and on success commits the resolved tag set. -/
lemma update_photo_owner_tags (db : DB) (p : Post) (u : User)
    (body : PhotoUpdateSchema) (ts : List String)
    (hp : findPost db p.id = some p) (hown : p.user_id = u.id)
    (hbt : body.tags = some ts) :
    (∀ e, resolveTagsCI db (normalizeTags ts) = .error e →
      update_photo_description p.id body db u = .error e) ∧
    (∀ q, resolveTagsCI db (normalizeTags ts) = .ok q →
      update_photo_description p.id body db u =
        .ok (putPost q.1 { applyBodyFields p body with tags := q.2 },
             { applyBodyFields p body with tags := q.2 })) := by
  constructor
  · intro e he
    rw [update_photo_owner_unfold_tags db p u body ts hp hown hbt, he]
  · intro q hq
    rw [update_photo_owner_unfold_tags db p u body ts hp hown hbt, hq]

/-- The only failure the tag resolution produces is the uncaught
`MultipleResultsFound`, surfaced as a 500. -/
lemma resolveTagCI_error (db : DB) (n : String) (e : Http)
    (h : resolveTagCI db n = .error e) :
    e = { status := 500, detail := "MultipleResultsFound" } := by
  unfold resolveTagCI scalar_one_or_none at h
  cases hf : db.tags.filter (fun t => pyLower t.name == casefold n) with
  | nil => rw [hf] at h; simp at h
  | cons a l =>
    cases l with
    | nil => rw [hf] at h; simp at h
    | cons b l₂ =>
      rw [hf] at h
      simp only [Except.error.injEq] at h
      exact h.symm

lemma resolveTagsCI_error (names : List String) : ∀ (db : DB) (e : Http),
    resolveTagsCI db names = .error e →
    e = { status := 500, detail := "MultipleResultsFound" } := by
  induction names with
  | nil => intro db e h; simp [resolveTagsCI] at h
  | cons n ns ih =>
    intro db e h
    simp only [resolveTagsCI] at h
    cases h1 : resolveTagCI db n with
    | error e' =>
      simp only [h1, Except.error.injEq] at h
      subst h
      exact resolveTagCI_error db n _ h1
    | ok r =>
      simp only [h1] at h
      cases h2 : resolveTagsCI r.1 ns with
      | error e' =>
        simp only [h2, Except.error.injEq] at h
        subst h
        exact ih r.1 _ h2
      | ok rest =>
        rw [h2] at h
        cases h

/-- On a list whose image under `f` has no duplicates, filtering for a
given `f`-value yields at most one element. -/
lemma filter_map_nodup_single {α β : Type} [DecidableEq β] (f : α → β) (c : β) :
    ∀ l : List α, (l.map f).Nodup →
      l.filter (fun a => f a == c) = [] ∨
      ∃ a, l.filter (fun a => f a == c) = [a] ∧ f a = c := by
  intro l
  induction l with
  | nil => intro _; exact .inl rfl
  | cons x xs ih =>
    intro h
    simp only [List.map_cons, List.nodup_cons] at h
    by_cases hx : f x = c
    · right
      refine ⟨x, ?_, hx⟩
      rw [List.filter_cons, if_pos (by simp [hx])]
      have : xs.filter (fun a => f a == c) = [] := by
        rw [List.filter_eq_nil_iff]
        intro a ha hbeq
        exact h.1 (hx ▸ (eq_of_beq hbeq) ▸ List.mem_map_of_mem f ha)
      rw [this]
    · rcases ih h.2 with h' | ⟨a, h', ha⟩
      · exact .inl (by rw [List.filter_cons, if_neg (by simp [hx]), h'])
      · exact .inr ⟨a, by rw [List.filter_cons, if_neg (by simp [hx]), h'], ha⟩

/-- Under the case-insensitive tag uniqueness invariant the resolve always
succeeds, preserves the invariant, and returns a tag whose casefolded name
is the casefolded input. -/
lemma resolveTagCI_ok (db : DB) (n : String) (h : tagsCaseNodup db) :
    ∃ r : DB × Tag, resolveTagCI db n = .ok r ∧ tagsCaseNodup r.1 ∧
      casefold r.2.name = casefold n := by
  have h' : (db.tags.map (fun t => pyLower t.name)).Nodup := h
  rcases filter_map_nodup_single (fun t => pyLower t.name) (casefold n) db.tags h'
    with hf | ⟨a, hf, ha⟩
  · have hr : resolveTagCI db n = .ok ({ db with tags := db.tags ++ [{ id := db.nextTagId, name := n }], nextTagId := db.nextTagId + 1 }, { id := db.nextTagId, name := n }) := by
      simp only [resolveTagCI, scalar_one_or_none, hf]
    refine ⟨_, hr, ?_, rfl⟩
    show ((db.tags ++ [({ id := db.nextTagId, name := n } : Tag)]).map
        (fun t : Tag => pyLower t.name)).Nodup
    rw [List.map_append, List.nodup_append]
    refine ⟨h', by simp, ?_⟩
    intro b hb hb1
    simp only [List.map_cons, List.map_nil, List.mem_singleton] at hb1
    have hnone : ∀ t ∈ db.tags, ¬ ((fun t => pyLower t.name == casefold n) t = true) :=
      List.filter_eq_nil_iff.mp hf
    obtain ⟨t, ht, rfl⟩ := List.mem_map.mp hb
    exact hnone t ht (by simp [hb1, casefold])
  · exact ⟨(db, a), by simp only [resolveTagCI, scalar_one_or_none, hf], h, ha⟩

/-- Under the invariant the whole resolution loop succeeds and the resolved
tags casefold-match the requested names one for one. -/
lemma resolveTagsCI_ok (names : List String) : ∀ db : DB, tagsCaseNodup db →
    ∃ q : DB × List Tag, resolveTagsCI db names = .ok q ∧ tagsCaseNodup q.1 ∧
      q.2.map (fun t => casefold t.name) = names.map casefold := by
  induction names with
  | nil => intro db h; exact ⟨(db, []), rfl, h, rfl⟩
  | cons n ns ih =>
    intro db h
    obtain ⟨r, hr, hr1, hr2⟩ := resolveTagCI_ok db n h
    obtain ⟨q, hq, hq1, hq2⟩ := ih r.1 hr1
    refine ⟨(q.1, r.2 :: q.2), ?_, hq1, ?_⟩
    · simp only [resolveTagsCI, hr, hq]
    · simp only [List.map_cons, hq2, hr2]

/-- C1 — counterexample.  Photo 1 exists and is owned by user 1; alice has
role ADMIN and is not the owner, yet both the photo update and the photo
delete operations fail with 403 Forbidden, refuting "the same update or
delete on P performed ... by a user with role ADMIN succeeds": the
repository checks only `post.user_id != user.id`, with no role bypass. -/
theorem c1_admin_update_delete_forbidden :
    alice.role = Role.ADMIN ∧
    findPost sampleDB 1 = some bobsPhoto ∧
    bobsPhoto.user_id ≠ alice.id ∧
    update_photo_description 1 {} sampleDB alice =
      .error { status := 403, detail := "Not enough permissions to update this photo" } ∧
    delete_photo 1 sampleDB alice =
      .error { status := 403, detail := "Not enough permissions to delete this photo" } := by
  refine ⟨rfl, rfl, by decide, rfl, rfl⟩

/-- C1 (amended) — on the photo update and photo delete operations, any
caller other than the photo's owner — elevated roles included — fails with
403 Forbidden: the repository enforces pure row ownership with no role
bypass (admin mutation exists only as separate `/admin` endpoints whose
repository functions are absent from the source).  The owner is never
rejected with Forbidden: the delete always succeeds, and the update either
succeeds or — only when its tags lookup hits case-duplicate Tag rows —
fails with the uncaught 500 `MultipleResultsFound`, never with 403. -/
theorem photo_update_delete_owner_only (db : DB) (p : Post) (u : User)
    (body : PhotoUpdateSchema) (hp : findPost db p.id = some p) :
    (u.id ≠ p.user_id →
      update_photo_description p.id body db u =
        .error { status := 403, detail := "Not enough permissions to update this photo" } ∧
      delete_photo p.id db u =
        .error { status := 403, detail := "Not enough permissions to delete this photo" }) ∧
    (u.id = p.user_id →
      ((∃ r, update_photo_description p.id body db u = .ok r) ∨
        update_photo_description p.id body db u =
          .error { status := 500, detail := "MultipleResultsFound" }) ∧
      (∀ e, update_photo_description p.id body db u = .error e → e.status ≠ 403) ∧
      (∃ r, delete_photo p.id db u = .ok r)) := by
  constructor
  · intro hne
    exact ⟨update_photo_forbidden db p u body hp (fun h => hne h.symm),
           delete_photo_forbidden db p u hp (fun h => hne h.symm)⟩
  · intro heq
    have hupd : (∃ r, update_photo_description p.id body db u = .ok r) ∨
        update_photo_description p.id body db u =
          .error { status := 500, detail := "MultipleResultsFound" } := by
      cases hbt : body.tags with
      | none =>
        obtain ⟨db', hok, -⟩ := update_photo_by_owner_no_tags db p u body hp heq.symm hbt
        exact .inl ⟨_, hok⟩
      | some ts =>
        have hB := update_photo_owner_tags db p u body ts hp heq.symm hbt
        cases hq : resolveTagsCI db (normalizeTags ts) with
        | error e =>
          have h500 := resolveTagsCI_error (normalizeTags ts) db e hq
          exact .inr (h500 ▸ hB.1 e hq)
        | ok q => exact .inl ⟨_, hB.2 q hq⟩
    refine ⟨hupd, ?_, ⟨_, delete_photo_by_owner db p u hp heq.symm⟩⟩
    intro e he
    rcases hupd with ⟨r, hr⟩ | hr
    · rw [he] at hr
      cases hr
    · rw [he] at hr
      have : e = { status := 500, detail := "MultipleResultsFound" } := by
        injection hr
      rw [this]
      decide

/-- C1 (amended) — witness: alice (ADMIN, not the owner) is rejected on
photo 1 while bob (the owner) succeeds on both operations. -/
theorem photo_update_delete_owner_only_witness :
    (update_photo_description 1 {} sampleDB alice =
      .error { status := 403, detail := "Not enough permissions to update this photo" } ∧
     delete_photo 1 sampleDB alice =
      .error { status := 403, detail := "Not enough permissions to delete this photo" }) ∧
    (((∃ r, update_photo_description 1 {} sampleDB bob = .ok r) ∨
       update_photo_description 1 {} sampleDB bob =
         .error { status := 500, detail := "MultipleResultsFound" }) ∧
     (∀ e, update_photo_description 1 {} sampleDB bob = .error e → e.status ≠ 403) ∧
     (∃ r, delete_photo 1 sampleDB bob = .ok r)) :=
  ⟨(photo_update_delete_owner_only sampleDB bobsPhoto alice {} rfl).1 (by decide),
   (photo_update_delete_owner_only sampleDB bobsPhoto bob {} rfl).2 rfl⟩

/-- C2 — the live registration path (`routes.auth.signup`) gives the very
first user role USER (the role defaults from the request schema; no
count-based rule runs), while the count-based bootstrap the claim describes
exists only in the never-imported `crud.create_user`, which would indeed
make the first user ADMIN.  Evaluating both at an empty identity store
exhibits the divergence. -/
theorem c2_first_signup_gets_user_role :
    (∃ db u,
      signup { username := "alice", email := "alice@example.com", password := "pw" } emptyDB =
        .ok (db, u) ∧ u.role = Role.USER) ∧
    (crud.create_user emptyDB "alice" "alice@example.com" "pw").2.role = Role.ADMIN :=
  ⟨⟨_, _, rfl, rfl⟩, rfl⟩

/-- C3 — for any store and any accepted signup request, the created user's
role equals the role supplied in the request body, the schema defaulting
the field to USER when omitted; the store is arbitrary, so no count-based
or bootstrap rule interferes. -/
theorem signup_role_from_request_body (db : DB) (body : UserSchema)
    (hfree : findUserByEmail db body.email = none) :
    (∃ db' u, signup body db = .ok (db', u) ∧ u.role = body.role) ∧
    (∀ un em pw, ({ username := un, email := em, password := pw } : UserSchema).role = Role.USER) := by
  constructor
  · have h : signup body db =
        .ok (create_user { body with password := get_password_hash body.password } db) := by
      simp only [signup, hfree]
    exact ⟨_, _, h, rfl⟩
  · intro un em pw
    rfl

/-- C3 — witness: with two users already present, a signup that asks for
role ADMIN is honored. -/
theorem signup_role_from_request_body_witness :
    (∃ db' u,
      signup { username := "eve1", email := "eve@example.com", password := "pw", role := Role.ADMIN }
        sampleDB = .ok (db', u) ∧ u.role = Role.ADMIN) ∧ sampleDB.users.length = 2 :=
  ⟨(signup_role_from_request_body sampleDB
      { username := "eve1", email := "eve@example.com", password := "pw", role := Role.ADMIN }
      rfl).1, rfl⟩

/-- C4 — counterexample: the names "nature" and "Nature" casefold equal, yet
attaching them to two different photos via photo creation leaves two Tag
rows: `create_photo` looks tags up by exact name
(`select(Tag).filter_by(name=tag_name)`), not case-insensitively. -/
theorem c4_create_photo_case_duplicate :
    casefold "nature" = casefold "Nature" ∧
    ((create_photo ("u2", "pub9") none (some ["Nature"])
        (create_photo ("u1", "pub8") none (some ["nature"]) emptyDB bob).1 bob).1.tags =
      [{ id := 1, name := "nature" }, { id := 2, name := "Nature" }]) :=
  ⟨by decide, rfl⟩

/-- C6 — the comment's own author, holding role USER, is rejected with 403
FORBIDDEN by the delete route's `RoleAccess([Role.ADMIN, Role.MODERATOR])`
dependency before any ownership or existence logic runs, although the
claim (and the route's own docstring, "must be owner or admin") says the
author succeeds. -/
theorem c6_comment_author_delete_forbidden :
    bobsComment.user_id = bob.id ∧ bob.role = Role.USER ∧
    findComment sampleDB bobsComment.id = some bobsComment ∧
    delete_comment_route bobsComment.id bob.id sampleDB bob =
      .error { status := 403, detail := "FORBIDDEN" } :=
  ⟨rfl, rfl, rfl, rfl⟩

/-- C9 — frame condition of the partial photo update by the owner: a
request without a tags field always succeeds; whenever the update returns a
row — a tags request can instead die on the uncaught `MultipleResultsFound`
and then changes nothing — only the fields present (non-None) in the
request changed and every other field kept its prior value; and a request
with no recognized field set is a no-op that still returns the current
row (not an error) and leaves the store untouched. -/
theorem partial_update_frame (db : DB) (p : Post) (u : User) (body : PhotoUpdateSchema)
    (hp : findPost db p.id = some p) (hown : p.user_id = u.id) :
    (body.tags = none → ∃ r, update_photo_description p.id body db u = .ok r) ∧
    (∀ db' p', update_photo_description p.id body db u = .ok (db', p') →
      p'.id = p.id ∧ p'.user_id = p.user_id ∧ p'.url = p.url ∧
      p'.public_id = p.public_id ∧ p'.qr_code_path = p.qr_code_path ∧
      p'.description = (match body.description with | some d => some d | none => p.description) ∧
      p'.transformed_url =
        (match body.transformed_url with | some t => some t | none => p.transformed_url) ∧
      (body.tags = none → p'.tags = p.tags)) ∧
    (body = {} → update_photo_description p.id body db u = .ok (db, p)) := by
  refine ⟨?_, ?_, ?_⟩
  · intro hbt
    obtain ⟨db', hok, -⟩ := update_photo_by_owner_no_tags db p u body hp hown hbt
    exact ⟨_, hok⟩
  · intro db' p' h
    cases hbt : body.tags with
    | none =>
      obtain ⟨db₀, hok, -⟩ := update_photo_by_owner_no_tags db p u body hp hown hbt
      rw [hok] at h
      injection h with h'
      injection h' with hdb hpp
      subst hdb hpp
      obtain ⟨f1, f2, f3, f4, f5, f6, f7, f8⟩ := applyBodyFields_frame p body
      exact ⟨f1, f2, f3, f4, f5, f7, f8, fun _ => f6⟩
    | some ts =>
      have hB := update_photo_owner_tags db p u body ts hp hown hbt
      cases hq : resolveTagsCI db (normalizeTags ts) with
      | error e =>
        rw [hB.1 e hq] at h
        cases h
      | ok q =>
        rw [hB.2 q hq] at h
        injection h with h'
        injection h' with hdb hpp
        subst hdb hpp
        obtain ⟨f1, f2, f3, f4, f5, f6, f7, f8⟩ := applyBodyFields_frame p body
        exact ⟨f1, f2, f3, f4, f5, f7, f8, fun hcontra => by cases hcontra⟩
  · intro hb
    subst hb
    obtain ⟨db', hok, hno⟩ := update_photo_by_owner_no_tags db p u {} hp hown rfl
    obtain ⟨hA, hdb⟩ := hno rfl
    rw [hA, hdb] at hok
    exact hok

/-- C9 — witness: a description-only update by the owner succeeds, any row
it returns changed just the description, and the empty update is a no-op
that still returns the row. -/
theorem partial_update_frame_witness :
    (∃ r, update_photo_description 1 { description := some "dunes" } sampleDB bob = .ok r) ∧
    (∀ db' p',
      update_photo_description 1 { description := some "dunes" } sampleDB bob = .ok (db', p') →
      p'.description = some "dunes" ∧ p'.url = bobsPhoto.url ∧ p'.tags = bobsPhoto.tags) ∧
    update_photo_description 1 {} sampleDB bob = .ok (sampleDB, bobsPhoto) := by
  refine ⟨?_, ?_, ?_⟩
  · exact (partial_update_frame sampleDB bobsPhoto bob
      { description := some "dunes" } rfl rfl).1 rfl
  · intro db' p' h
    obtain ⟨-, -, h3, -, -, h6, -, h8⟩ := (partial_update_frame sampleDB bobsPhoto bob
      { description := some "dunes" } rfl rfl).2.1 db' p' h
    exact ⟨h6, h3, h8 rfl⟩
  · exact (partial_update_frame sampleDB bobsPhoto bob {} rfl rfl).2.2 rfl

/-- C7 — counterexample.  No comment with id 99 exists, yet the comment
delete operation by a plain USER fails with 403 Forbidden rather than 404
NotFound: the route's role-based authorization dependency runs before any
existence check. -/
theorem c7_delete_missing_comment_forbidden :
    findComment sampleDB 99 = none ∧
    delete_comment_route 99 1 sampleDB bob =
      .error { status := 403, detail := "FORBIDDEN" } :=
  ⟨rfl, rfl⟩

/-! ### Helper lemmas on tag normalization -/

/-- Filtering on non-empty strip and then stripping equals stripping first
and then dropping the empties (the spec's reading of the list
comprehension). -/
lemma strip_filter_map (xs : List String) :
    (xs.filter (fun t => pyStrip t ≠ "")).map pyStrip =
    (xs.map pyStrip).filter (fun t => t ≠ "") := by
  induction xs with
  | nil => rfl
  | cons a l ih =>
    by_cases h : pyStrip a = ""
    · simpa [List.filter_cons, h] using ih
    · simpa [List.filter_cons, h] using ih

/-- C8 — counterexample.  In the store `dbDup`, reached by two photo
creations whose tags differ only in case ("nature", "Nature"), the owner's
update naming "nature" matches both Tag rows, so `scalar_one_or_none`
raises `MultipleResultsFound` — an uncaught 500 — and the update produces
no resulting tag set at all, refuting the claim as stated on this reachable
state. -/
theorem c8_update_multi_match_error :
    dbDup.tags = [{ id := 1, name := "nature" }, { id := 2, name := "Nature" }] ∧
    findPost dbDup 1 = some photoDup ∧ photoDup.user_id = bob.id ∧
    update_photo_description 1 { tags := some ["nature"] } dbDup bob =
      .error { status := 500, detail := "MultipleResultsFound" } :=
  ⟨rfl, rfl, rfl, rfl⟩

/-- C8 (amended) — on a store where no two Tag rows have casefold-equal
names, a photo update whose request carries a tags field succeeds for the
owner and replaces the photo's whole tag set by the resolution of the
normalized input: the resolved tags casefold-match, element by element, the
input after joining on commas, splitting on commas, stripping, dropping
empties and de-duplicating casefold-insensitively with first-seen casing
and order; the resulting tag set is computed from the request alone, so a
previously attached tag not named in the request is detached.  On a store
holding casefold-duplicate rows the update instead dies on the uncaught
`MultipleResultsFound` (see the counterexample). -/
theorem update_tags_normalization (db : DB) (p : Post) (u : User) (ts : List String)
    (hp : findPost db p.id = some p) (hown : p.user_id = u.id)
    (hnd : tagsCaseNodup db) :
    ∃ q db' p', resolveTagsCI db (normalizeTags ts) = .ok q ∧
      update_photo_description p.id { tags := some ts } db u = .ok (db', p') ∧
      p'.tags = q.2 ∧
      p'.tags.map (fun t => casefold t.name) = (normalizeTags ts).map casefold ∧
      normalizeTags ts =
        dedupCasefold (((splitComma (String.intercalate "," ts)).map pyStrip).filter
          (fun s => s ≠ "")) := by
  obtain ⟨q, hq, -, hnames⟩ := resolveTagsCI_ok (normalizeTags ts) db hnd
  have hB := update_photo_owner_tags db p u { tags := some ts } ts hp hown rfl
  refine ⟨q, _, _, hq, hB.2 q hq, rfl, ?_, ?_⟩
  · exact hnames
  · simp only [normalizeTags]
    rw [strip_filter_map]

/-- C8 (amended) — witness: the spec's own scenario, tags "Cat, cat, Dog"
on a clean store — the photo (previously tagged "sea") ends with exactly
the tags "Cat" and "Dog", in that order, first-seen casing. -/
theorem update_tags_normalization_witness :
    (∃ q db' p', resolveTagsCI dbTagged (normalizeTags ["Cat, cat, Dog"]) = .ok q ∧
      update_photo_description 1 { tags := some ["Cat, cat, Dog"] } dbTagged bob =
        .ok (db', p') ∧
      p'.tags = q.2 ∧
      p'.tags.map (fun t => casefold t.name) =
        (normalizeTags ["Cat, cat, Dog"]).map casefold ∧
      normalizeTags ["Cat, cat, Dog"] =
        dedupCasefold (((splitComma (String.intercalate "," ["Cat, cat, Dog"])).map pyStrip).filter
          (fun s => s ≠ ""))) ∧
    normalizeTags ["Cat, cat, Dog"] = ["Cat", "Dog"] :=
  ⟨update_tags_normalization dbTagged taggedPhoto bob ["Cat, cat, Dog"] rfl rfl
    (by show (dbTagged.tags.map (fun t => pyLower t.name)).Nodup; decide), by decide⟩

/-- C4 (amended) — on the photo update path the claim's case-insensitive
resolution does hold whenever the name resolves unambiguously: attaching a
single clean tag name whose casefold matches exactly one existing Tag row
resolves to that row and creates no new one.  With several casefold-equal
rows the source raises `MultipleResultsFound` instead of resolving, and it
is the creation path (see the counterexample) that resolves by exact name
and can produce such case-duplicates in the first place. -/
theorem update_tag_resolves_case_insensitive (db : DB) (p : Post) (u : User)
    (a : String) (t : Tag)
    (hp : findPost db p.id = some p) (hown : p.user_id = u.id)
    (hn : normalizeTags [a] = [a])
    (hone : db.tags.filter (fun q => pyLower q.name == casefold a) = [t]) :
    ∃ db' p', update_photo_description p.id { tags := some [a] } db u = .ok (db', p') ∧
      db'.tags = db.tags ∧ p'.tags = [t] := by
  have hr : resolveTagCI db a = .ok (db, t) := by
    simp only [resolveTagCI, scalar_one_or_none, hone]
  have hq : resolveTagsCI db [a] = .ok (db, [t]) := by
    simp only [resolveTagsCI, hr]
  have hB := update_photo_owner_tags db p u { tags := some [a] } [a] hp hown rfl
  rw [hn] at hB
  exact ⟨_, _, hB.2 (db, [t]) hq, rfl, rfl⟩

/-- C4 (amended) — witness: updating with "nature" when the store holds
exactly one casefold-match, the tag "NATURE", attaches that existing row
and adds none. -/
theorem update_tag_resolves_case_insensitive_witness :
    ∃ db' p', update_photo_description 1 { tags := some ["nature"] } dbCaseTag bob =
        .ok (db', p') ∧
      db'.tags = dbCaseTag.tags ∧ p'.tags = [{ id := 7, name := "NATURE" }] :=
  update_tag_resolves_case_insensitive dbCaseTag bobsPhoto bob "nature"
    { id := 7, name := "NATURE" } rfl rfl (by decide) (by decide)

/-- C7 (amended) — for the photo update, photo delete, comment update and
photo transform operations the ordering the claim states does hold: the
load comes first, a missing target fails 404 NotFound, and 403 Forbidden is
only ever produced after the load succeeded; the comment delete route alone
(see the counterexample) runs its role authorization before any existence
check. -/
theorem existence_precedes_authorization (db : DB) (pid cid : Nat) (u : User)
    (body : PhotoUpdateSchema) (cbody : CommentaryUpdateSchema)
    (host : String → String → String) (tr : String) :
    (findPost db pid = none →
      update_photo_description pid body db u =
        .error { status := 404, detail := "Photo not found" } ∧
      delete_photo pid db u = .error { status := 404, detail := "Photo not found" }) ∧
    (findComment db cid = none →
      update_comment cid cbody db u = .error { status := 404, detail := "Comment not found" }) ∧
    (findPostOwned db pid u.id = none →
      transform_photo host pid tr db u =
        (db, .error { status := 404, detail := "Photo not found" })) ∧
    (∀ e, update_photo_description pid body db u = .error e → e.status = 403 →
      ∃ p, findPost db pid = some p) ∧
    (∀ e, delete_photo pid db u = .error e → e.status = 403 →
      ∃ p, findPost db pid = some p) ∧
    (∀ e, update_comment cid cbody db u = .error e → e.status = 403 →
      ∃ c, findComment db cid = some c) := by
  refine ⟨?_, ?_, ?_, ?_, ?_, ?_⟩
  · intro h
    constructor <;> simp [update_photo_description, delete_photo, h]
  · intro h
    simp [update_comment, h]
  · intro h
    simp [transform_photo, h]
  · intro e he h403
    cases hf : findPost db pid with
    | none =>
      simp [update_photo_description, hf] at he
      rw [← he] at h403
      simp at h403
    | some p => exact ⟨p, rfl⟩
  · intro e he h403
    cases hf : findPost db pid with
    | none =>
      simp [delete_photo, hf] at he
      rw [← he] at h403
      simp at h403
    | some p => exact ⟨p, rfl⟩
  · intro e he h403
    cases hf : findComment db cid with
    | none =>
      simp [update_comment, hf] at he
      rw [← he] at h403
      simp at h403
    | some c => exact ⟨c, rfl⟩

/-- C7 (amended) — witness: id 99 resolves to no photo and no comment, and
each of the four operations reports 404 NotFound there. -/
theorem existence_precedes_authorization_witness :
    (update_photo_description 99 {} sampleDB bob =
      .error { status := 404, detail := "Photo not found" } ∧
     delete_photo 99 sampleDB bob = .error { status := 404, detail := "Photo not found" }) ∧
    update_comment 99 { comment_content := "x" } sampleDB bob =
      .error { status := 404, detail := "Comment not found" } ∧
    transform_photo (fun pid t => pid ++ "/" ++ t) 99 "resize" sampleDB bob =
      (sampleDB, .error { status := 404, detail := "Photo not found" }) := by
  have h := existence_precedes_authorization sampleDB 99 99 bob {}
    { comment_content := "x" } (fun pid t => pid ++ "/" ++ t) "resize"
  exact ⟨h.1 rfl, h.2.1 rfl, h.2.2.1 rfl⟩

/-- C10 — a transform request on a photo that resolves for the caller
fails with a 400 InvalidArgument and leaves the store (hence the photo's
transformed_url) untouched when the transformation name is outside
{resize, crop, grayscale, quality}, and for a supported name stores the
URL returned by the external asset host as the photo's transformed_url. -/
theorem transform_photo_validation (host : String → String → String) (db : DB)
    (p : Post) (u : User) (tr : String)
    (hp : findPostOwned db p.id u.id = some p) :
    (tr ∉ supportedTransformations →
      transform_photo host p.id tr db u =
        (db, .error { status := 400, detail := "Unsupported transformation" })) ∧
    (tr ∈ supportedTransformations →
      ∃ p', transform_photo host p.id tr db u = (putPost db p', .ok p') ∧
        p'.transformed_url = some (host p.public_id tr) ∧
        p'.id = p.id ∧ p'.user_id = p.user_id ∧ p'.public_id = p.public_id) := by
  constructor
  · intro hmem
    simp only [transform_photo, hp, transform_image]
    rw [if_neg hmem]
  · intro hmem
    refine ⟨{ p with transformed_url := some (host p.public_id tr) }, ?_, rfl, rfl, rfl, rfl⟩
    simp only [transform_photo, hp, transform_image]
    rw [if_pos hmem]

/-- C10 — witness: "sepia" is rejected with 400 and the store is returned
unchanged; "resize" stores the asset host's URL for the photo. -/
theorem transform_photo_validation_witness :
    transform_photo (fun pid t => pid ++ "/" ++ t) 1 "sepia" sampleDB bob =
      (sampleDB, .error { status := 400, detail := "Unsupported transformation" }) ∧
    ∃ p', transform_photo (fun pid t => pid ++ "/" ++ t) 1 "resize" sampleDB bob =
        (putPost sampleDB p', .ok p') ∧
      p'.transformed_url = some ("pub1" ++ "/" ++ "resize") ∧
      p'.id = 1 ∧ p'.user_id = 1 ∧ p'.public_id = "pub1" :=
  ⟨(transform_photo_validation (fun pid t => pid ++ "/" ++ t) sampleDB bobsPhoto bob
      "sepia" rfl).1 (by decide),
   (transform_photo_validation (fun pid t => pid ++ "/" ++ t) sampleDB bobsPhoto bob
      "resize" rfl).2 (by decide)⟩

/-! ### Helper lemmas on committing a user row -/

/-- Replacing the row with a matching primary key does not change the list
of primary keys. -/
lemma map_id_putUser (users : List User) (v : User) :
    (users.map (fun q => if q.id == v.id then v else q)).map User.id =
      users.map User.id := by
  induction users with
  | nil => rfl
  | cons a l ih =>
    simp only [List.map_cons, ih]
    by_cases h : a.id = v.id
    · simp [h]
    · simp [h]

/-- Committing a replacement row `v` for the user `u` found by email (same
primary key, same email) makes the by-email lookup return `v`, provided
primary keys are unique. -/
lemma find_putUser_email (users : List User) (u v : User)
    (hid : v.id = u.id) (hem : v.email = u.email)
    (hnodup : (users.map User.id).Nodup)
    (hu : users.find? (fun q => q.email == u.email) = some u) :
    (users.map (fun q => if q.id == v.id then v else q)).find?
      (fun q => q.email == u.email) = some v := by
  induction users with
  | nil => simp at hu
  | cons a l ih =>
    simp only [List.map_cons, List.nodup_cons] at hnodup
    rw [List.map_cons]
    by_cases hae : a.email = u.email
    · rw [List.find?_cons_of_pos _ (by simp [hae])] at hu
      have ha : a = u := by injection hu
      subst ha
      have hcond : (a.id == v.id) = true := by simp [hid]
      rw [if_pos hcond]
      exact List.find?_cons_of_pos _ (by simp [hem, hae])
    · rw [List.find?_cons_of_neg _ (by simp [hae])] at hu
      have hmem : u ∈ l := List.mem_of_find?_eq_some hu
      have hne : ¬ a.id = v.id := by
        intro h
        exact hnodup.1 (h ▸ hid ▸ List.mem_map_of_mem User.id hmem)
      rw [if_neg (by simp [hne])]
      rw [List.find?_cons_of_neg _ (by simp [hae])]
      exact ih hnodup.2 hu

/-- After any rotation — the stored token becomes the one freshly issued at
the current clock — a token issued at an earlier clock is different, its
presentation to the refresh operation fails 401, and the stored field is
cleared.  Stated over the rotated store
`update_token u (some fresh) (clock bumped)`, the shape both the login and
the refresh success paths produce. -/
lemma stale_after_rotation (db : DB) (u : User) (t_old : RefreshToken)
    (hnodup : (db.users.map User.id).Nodup)
    (hu : findUserByEmail db u.email = some u)
    (hsub : t_old.sub = u.email)
    (hiat : t_old.iat < db.tokenClock) :
    t_old ≠ create_refresh_token u.email db.tokenClock ∧
    (refresh_token_route t_old
      (update_token u (some (create_refresh_token u.email db.tokenClock))
        { db with tokenClock := db.tokenClock + 1 })).2 =
      .error { status := 401, detail := "Invalid refresh token" } ∧
    findUserByEmail
      (refresh_token_route t_old
        (update_token u (some (create_refresh_token u.email db.tokenClock))
          { db with tokenClock := db.tokenClock + 1 })).1 u.email =
      some { u with refresh_token := none } := by
  set t_new := create_refresh_token u.email db.tokenClock with ht
  set u₁ : User := { u with refresh_token := some t_new } with hu₁
  set db₁ : DB := update_token u (some t_new) { db with tokenClock := db.tokenClock + 1 }
    with hdb₁
  have hfind1 : findUserByEmail db₁ u.email = some u₁ :=
    find_putUser_email db.users u u₁ rfl rfl hnodup hu
  have htne : t_old ≠ t_new := by
    intro h
    exact absurd (congrArg RefreshToken.iat h) (Nat.ne_of_lt hiat)
  have hcond : u₁.refresh_token ≠ some t_old := by
    intro h
    exact htne (by injection h with h'; exact h'.symm)
  have hroute : refresh_token_route t_old db₁ =
      (update_token u₁ none db₁,
       .error { status := 401, detail := "Invalid refresh token" }) := by
    simp only [refresh_token_route, decode_refresh_token, hsub, hfind1]
    rw [if_pos hcond]
  have hnodup1 : (db₁.users.map User.id).Nodup := by
    have hmap : db₁.users.map User.id = db.users.map User.id :=
      map_id_putUser db.users u₁
    rw [hmap]
    exact hnodup
  have hfind2 : findUserByEmail (update_token u₁ none db₁) u.email =
      some { u with refresh_token := none } :=
    find_putUser_email db₁.users u₁ { u₁ with refresh_token := none } rfl rfl hnodup1 hfind1
  exact ⟨htne, by rw [hroute], by rw [hroute]; exact hfind2⟩

/-- C5 — refresh-token rotation fails closed, for both rotation paths.
Login half: the user (whose stored token is `t_old`) logs in again, the
stored token becomes the freshly issued one, and presenting the superseded
`t_old` fails 401 and clears the stored field.  Refresh half: presenting
`t_old` to the refresh operation succeeds and rotates the stored token,
after which presenting `t_old` again fails 401 and clears the stored
field. -/
theorem refresh_stale_token_fails_and_clears (db : DB) (u : User) (pw : String)
    (t_old : RefreshToken)
    (hnodup : (db.users.map User.id).Nodup)
    (hu : findUserByEmail db u.email = some u)
    (hpw : u.password = get_password_hash pw)
    (hprev : u.refresh_token = some t_old)
    (hsub : t_old.sub = u.email)
    (hiat : t_old.iat < db.tokenClock) :
    (∃ db₁ t_new, login u.email pw db = .ok (db₁, t_new) ∧ t_old ≠ t_new ∧
      (refresh_token_route t_old db₁).2 =
        .error { status := 401, detail := "Invalid refresh token" } ∧
      findUserByEmail (refresh_token_route t_old db₁).1 u.email =
        some { u with refresh_token := none }) ∧
    (∃ t_new, (refresh_token_route t_old db).2 = .ok t_new ∧ t_old ≠ t_new ∧
      (refresh_token_route t_old (refresh_token_route t_old db).1).2 =
        .error { status := 401, detail := "Invalid refresh token" } ∧
      findUserByEmail
          (refresh_token_route t_old (refresh_token_route t_old db).1).1 u.email =
        some { u with refresh_token := none }) := by
  obtain ⟨htne, h401, hclear⟩ := stale_after_rotation db u t_old hnodup hu hsub hiat
  constructor
  · have hver : verify_password pw u.password = true := by
      simp [verify_password, hpw]
    have hlogin : login u.email pw db =
        .ok (update_token u (some (create_refresh_token u.email db.tokenClock))
              { db with tokenClock := db.tokenClock + 1 },
            create_refresh_token u.email db.tokenClock) := by
      simp [login, hu, hver]
    exact ⟨_, _, hlogin, htne, h401, hclear⟩
  · have hvalid : ¬ u.refresh_token ≠ some t_old := by
      rw [hprev]
      exact not_not_intro rfl
    have hrot : refresh_token_route t_old db =
        (update_token u (some (create_refresh_token u.email db.tokenClock))
          { db with tokenClock := db.tokenClock + 1 },
         .ok (create_refresh_token u.email db.tokenClock)) := by
      simp only [refresh_token_route, decode_refresh_token, hsub, hu]
      rw [if_neg hvalid]
    refine ⟨create_refresh_token u.email db.tokenClock, ?_, htne, ?_, ?_⟩
    · rw [hrot]
    · rw [hrot]
      exact h401
    · rw [hrot]
      exact hclear

/-- C5 — witness: bob, logged in with the token stamped 0 while the clock
stands at 3, rotates by logging in again and, separately, by refreshing:
either way the old token is then rejected with 401 and his stored token is
cleared. -/
theorem refresh_stale_token_witness :
    (∃ db₁ t_new, login "bob@example.com" "bobpw" dbAuth = .ok (db₁, t_new) ∧
      ({ sub := "bob@example.com", iat := 0 } : RefreshToken) ≠ t_new ∧
      (refresh_token_route { sub := "bob@example.com", iat := 0 } db₁).2 =
        .error { status := 401, detail := "Invalid refresh token" } ∧
      findUserByEmail (refresh_token_route { sub := "bob@example.com", iat := 0 } db₁).1
          "bob@example.com" =
        some { bobLoggedIn with refresh_token := none }) ∧
    (∃ t_new,
      (refresh_token_route { sub := "bob@example.com", iat := 0 } dbAuth).2 = .ok t_new ∧
      ({ sub := "bob@example.com", iat := 0 } : RefreshToken) ≠ t_new ∧
      (refresh_token_route { sub := "bob@example.com", iat := 0 }
        (refresh_token_route { sub := "bob@example.com", iat := 0 } dbAuth).1).2 =
        .error { status := 401, detail := "Invalid refresh token" } ∧
      findUserByEmail
          (refresh_token_route { sub := "bob@example.com", iat := 0 }
            (refresh_token_route { sub := "bob@example.com", iat := 0 } dbAuth).1).1
          "bob@example.com" =
        some { bobLoggedIn with refresh_token := none }) :=
  refresh_stale_token_fails_and_clears dbAuth bobLoggedIn "bobpw"
    { sub := "bob@example.com", iat := 0 } (by decide) rfl rfl rfl rfl (by decide)

end PhotoShare
